import Mathlib

/-!
Verification of the moderation core of `src/bot.py` (class `SuperUtilityBot`).

The embedding mirrors the source:
* Python dicts keyed by integer ids are association lists
  (`lookup?` / `lookupD` / `insertKV` reproduce `d.get(k, default)`,
  `d.setdefault`, and `d[k] = v` as observed through lookups);
* `self.group_settings.setdefault(chat_id, {}).setdefault('warnings', {})`
  only ever uses the key `'warnings'`, so a chat's settings are modelled
  directly as its warnings table;
* `cmd_warn` (lines 257-285) becomes a pure function from the bot state and
  the relevant parts of the update (actor id, effective chat id,
  `context.args`, the optional `reply_to_message.from_user.id`) to the list
  of outbound actions it performs plus the new state;
* `is_admin` (lines 290-292) is `user.id in self.admin_ids`;
* the configuration-loading prefix of `__init__` (lines 39-45) becomes
  `load_config`, with Python's `int()` on a token modelled by `pyInt`.
-/

/-- `d.get(k)` on a Python dict keyed by ids: `none` when the key is absent. -/
def lookup? {α : Type} : List (Int × α) → Int → Option α
  | [], _ => none
  | (k', v) :: rest, k => if k' = k then some v else lookup? rest k

/-- `d.get(k, default)`. -/
def lookupD {α : Type} (m : List (Int × α)) (k : Int) (d : α) : α :=
  (lookup? m k).getD d

/-- `d[k] = v`: replace the binding if present, otherwise append it. -/
def insertKV {α : Type} : List (Int × α) → Int → α → List (Int × α)
  | [], k, v => [(k, v)]
  | (k', v') :: rest, k, v =>
    if k' = k then (k, v) :: rest else (k', v') :: insertKV rest k v

/-- Per-chat warnings dict: `user_id ↦ warning count`
(`group_settings[chat]['warnings']` in the source). Counts are Python ints. -/
abbrev Warnings := List (Int × Int)

/-- `self.group_settings`: `chat_id ↦ warnings` (the only key the source ever
stores under a chat's settings dict is `'warnings'`). -/
abbrev GroupSettings := List (Int × Warnings)

/-- The bot fields `cmd_warn` and `is_admin` read or write:
`self.admin_ids` (fixed at construction) and the mutable
`self.group_settings`. -/
structure BotState where
  admin_ids : List Int
  group_settings : GroupSettings
deriving DecidableEq, Repr

/-- `is_admin` (bot.py line 292): `return user.id in self.admin_ids`. -/
def BotState.is_admin (s : BotState) (userId : Int) : Bool :=
  s.admin_ids.contains userId

/-- The observable actions `cmd_warn` performs, in order:
`reply_text` of the three distinct messages it can send, and the
`context.bot.ban_chat_member` call. -/
inductive Reply where
  | needAdmin : Reply
  | usageHint : Reply
  | warnMsg (userId : Int) (reason : String) (total : Int) : Reply
  | banChatMember (chatId userId : Int) : Reply
  | bannedNotice (userId : Int) : Reply
deriving DecidableEq, Repr

/-- Whether an action is the warning `reply_text` (the `warn_msg` of the
source, line 281). -/
def Reply.isWarnMsg : Reply → Bool
  | Reply.warnMsg _ _ _ => true
  | _ => false

/-- Whether an action is the `ban_chat_member` call (line 284). -/
def Reply.isBanCall : Reply → Bool
  | Reply.banChatMember _ _ => true
  | _ => false

/-- The parts of an `Update` that `cmd_warn` reads: the actor
(`update.effective_user.id`), the chat (`update.effective_chat.id`),
`context.args`, and the warned user
(`update.message.reply_to_message.from_user.id`, absent when the command is
not a reply). -/
structure WarnInput where
  actorId : Int
  chatId : Int
  args : List String
  replyFrom : Option Int
deriving DecidableEq, Repr

/-- Warning count as the source reads it:
`group_settings.setdefault(chat, {}).setdefault('warnings', {}).get(user, 0)`. -/
def getWarnCount (gs : GroupSettings) (chat user : Int) : Int :=
  lookupD (lookupD gs chat []) user 0

/-- Whether an actual entry exists for `(chat, user)` (as opposed to the
`.get(user.id, 0)` default being used). -/
def hasWarnEntry (gs : GroupSettings) (chat user : Int) : Bool :=
  match lookup? gs chat with
  | some w => (lookup? w user).isSome
  | none => false

/-- `cmd_warn` (bot.py lines 257-285), as a pure function on the state.
Order of the source: admin check; `not context.args or not reply_to_message`
usage check; increment `warnings[user.id]`; send `warn_msg`; if the new count
is `>= 3`, call `ban_chat_member` and send the banned notice. -/
def cmd_warn (s : BotState) (inp : WarnInput) : List Reply × BotState :=
  if !(s.is_admin inp.actorId) then
    ([Reply.needAdmin], s)
  else if inp.args.isEmpty || inp.replyFrom.isNone then
    ([Reply.usageHint], s)
  else
    match inp.replyFrom with
    | none => ([Reply.usageHint], s)
    | some uid =>
      let reason := String.intercalate " " inp.args
      let warnings := lookupD s.group_settings inp.chatId []
      let newCount := lookupD warnings uid 0 + 1
      let warnings2 := insertKV warnings uid newCount
      let gs2 := insertKV s.group_settings inp.chatId warnings2
      let msgs :=
        if newCount ≥ 3 then
          [Reply.warnMsg uid reason newCount,
           Reply.banChatMember inp.chatId uid,
           Reply.bannedNotice uid]
        else
          [Reply.warnMsg uid reason newCount]
      (msgs, { s with group_settings := gs2 })

/-- One inbound warn update: the state after `cmd_warn` handled it. -/
def stepWarn (s : BotState) (inp : WarnInput) : BotState :=
  (cmd_warn s inp).2

/-- The bot state after a sequence of warn updates, starting from
construction (`self.group_settings = {}`, line 49) with the given
`admin_ids`. Every reachable `group_settings` value is of this form, since
`cmd_warn` is the only handler in the source that touches it. -/
def runWarns (adminIds : List Int) (events : List WarnInput) : BotState :=
  events.foldl stepWarn ⟨adminIds, []⟩

/-- `env.split(',')` on the character list: splits at every comma, keeping
empty pieces, as Python `str.split` with an explicit separator does. -/
def splitCommaAux : List Char → List Char → List String
  | [], acc => [String.mk acc.reverse]
  | c :: rest, acc =>
    if c = ',' then String.mk acc.reverse :: splitCommaAux rest []
    else splitCommaAux rest (c :: acc)

/-- `env.split(',')`. -/
def splitComma (s : String) : List String :=
  splitCommaAux s.toList []

/-- Python `str.strip()`: drop whitespace from both ends. -/
def pyStrip (s : String) : String :=
  String.mk
    (((s.toList.dropWhile Char.isWhitespace).reverse.dropWhile
      Char.isWhitespace).reverse)

/-- Value of a nonempty digit sequence. -/
def digitsToNat (l : List Char) : Nat :=
  l.foldl (fun acc c => acc * 10 + (c.toNat - 48)) 0

/-- Models Python `int(t)` on an already-stripped token `t`: an optional
sign followed by at least one digit parses; anything else raises
`ValueError` (`none`). -/
def pyInt (t : String) : Option Int :=
  match t.toList with
  | '-' :: core =>
    if core ≠ [] ∧ core.all Char.isDigit then some (-(digitsToNat core : Int))
    else none
  | '+' :: core =>
    if core ≠ [] ∧ core.all Char.isDigit then some (digitsToNat core : Int)
    else none
  | core =>
    if core ≠ [] ∧ core.all Char.isDigit then some (digitsToNat core : Int)
    else none

/-- `[int(id.strip()) for id in env.split(',') if id.strip()]`
(bot.py line 40): `none` when some kept token makes `int()` raise. -/
def parse_admin_ids (env : String) : Option (List Int) :=
  ((splitComma env).filter (fun t => pyStrip t ≠ "")).foldr
    (fun t acc =>
      match pyInt (pyStrip t), acc with
      | some n, some l => some (n :: l)
      | _, _ => none)
    (some [])

/-- The configuration a successful `__init__` prefix produces. -/
structure Config where
  token : String
  admin_ids : List Int
deriving DecidableEq, Repr

/-- The only exception type raised by lines 39-45: Python `ValueError`,
either from `int()` on a bad `ADMIN_IDS` token or from the explicit
`raise` when the token is missing. -/
inductive InitError where
  | valueError (msg : String) : InitError
deriving DecidableEq, Repr

/-- The configuration-loading prefix of `__init__` (bot.py lines 39-45).
Arguments are `os.getenv('TELEGRAM_BOT_TOKEN')` and
`os.getenv('ADMIN_IDS')`, `none` when the variable is unset; `ADMIN_IDS`
falls back to `''`. Statement order is the source's: `admin_ids` is parsed
(and can raise) before the token emptiness check runs. -/
def load_config (tokenEnv adminIdsEnv : Option String) : Except InitError Config :=
  match parse_admin_ids (adminIdsEnv.getD "") with
  | none => Except.error (InitError.valueError "invalid literal for int() with base 10")
  | some ids =>
    if tokenEnv.getD "" = "" then
      Except.error (InitError.valueError "TELEGRAM_BOT_TOKEN environment variable not set")
    else
      Except.ok { token := tokenEnv.getD "", admin_ids := ids }

example : parse_admin_ids "1, 2 ,,3" = some [1, 2, 3] := by decide

example : parse_admin_ids "abc" = none := by decide

example :
    load_config (some "tok") (some "7,8") =
      Except.ok { token := "tok", admin_ids := [7, 8] } := rfl

/-- The `group_settings` update the success path of `cmd_warn` performs
(lines 270-271): bump the target's count by one under its chat. -/
def warnUpdate (gs : GroupSettings) (chat uid : Int) : GroupSettings :=
  insertKV gs chat
    (insertKV (lookupD gs chat []) uid (getWarnCount gs chat uid + 1))

/-- The outbound actions the success path of `cmd_warn` performs
(lines 273-285). -/
def warnReplies (gs : GroupSettings) (chat uid : Int) (args : List String) :
    List Reply :=
  let newCount := getWarnCount gs chat uid + 1
  if newCount ≥ 3 then
    [Reply.warnMsg uid (String.intercalate " " args) newCount,
     Reply.banChatMember chat uid,
     Reply.bannedNotice uid]
  else
    [Reply.warnMsg uid (String.intercalate " " args) newCount]

lemma lookup?_insertKV_self {α : Type} (m : List (Int × α)) (k : Int) (v : α) :
    lookup? (insertKV m k v) k = some v := by
  induction m with
  | nil => simp [insertKV, lookup?]
  | cons p rest ih =>
    obtain ⟨k', v'⟩ := p
    by_cases h : k' = k
    · simp [insertKV, h, lookup?]
    · simp [insertKV, h, lookup?, ih]

lemma lookup?_insertKV_other {α : Type} (m : List (Int × α)) (k k' : Int)
    (v : α) (h : k' ≠ k) :
    lookup? (insertKV m k v) k' = lookup? m k' := by
  induction m with
  | nil => simp [insertKV, lookup?, Ne.symm h]
  | cons p rest ih =>
    obtain ⟨a, b⟩ := p
    by_cases ha : a = k
    · subst ha
      simp [insertKV, lookup?, Ne.symm h]
    · simp [insertKV, ha, lookup?, ih]

lemma getWarnCount_warnUpdate_self (gs : GroupSettings) (chat uid : Int) :
    getWarnCount (warnUpdate gs chat uid) chat uid =
      getWarnCount gs chat uid + 1 := by
  simp [getWarnCount, warnUpdate, lookupD, lookup?_insertKV_self]

lemma getWarnCount_warnUpdate_other (gs : GroupSettings) (chat uid c u : Int)
    (h : c ≠ chat ∨ u ≠ uid) :
    getWarnCount (warnUpdate gs chat uid) c u = getWarnCount gs c u := by
  by_cases hc : c = chat
  · subst hc
    have hu : u ≠ uid := h.resolve_left (fun hh => hh rfl)
    simp [getWarnCount, warnUpdate, lookupD, lookup?_insertKV_self,
      lookup?_insertKV_other _ _ _ _ hu]
  · simp [getWarnCount, warnUpdate, lookupD,
      lookup?_insertKV_other _ _ _ _ hc]

lemma cmd_warn_not_admin (s : BotState) (inp : WarnInput)
    (hadm : s.is_admin inp.actorId = false) :
    cmd_warn s inp = ([Reply.needAdmin], s) := by
  simp [cmd_warn, hadm]

lemma cmd_warn_usage (s : BotState) (inp : WarnInput)
    (hadm : s.is_admin inp.actorId = true)
    (h : inp.args = [] ∨ inp.replyFrom = none) :
    cmd_warn s inp = ([Reply.usageHint], s) := by
  rcases h with h | h <;> simp [cmd_warn, hadm, h]

lemma cmd_warn_success (s : BotState) (inp : WarnInput) (uid : Int)
    (hadm : s.is_admin inp.actorId = true)
    (hargs : inp.args ≠ [])
    (hreply : inp.replyFrom = some uid) :
    cmd_warn s inp =
      (warnReplies s.group_settings inp.chatId uid inp.args,
       { s with
          group_settings := warnUpdate s.group_settings inp.chatId uid }) := by
  have hne : inp.args.isEmpty = false := by
    cases h : inp.args with
    | nil => exact absurd h hargs
    | cons a l => rfl
  simp [cmd_warn, hadm, hne, hreply, warnReplies, warnUpdate, getWarnCount]

lemma cmd_warn_success_state (s : BotState) (inp : WarnInput) (uid : Int)
    (hadm : s.is_admin inp.actorId = true)
    (hargs : inp.args ≠ [])
    (hreply : inp.replyFrom = some uid) :
    (cmd_warn s inp).2.group_settings =
      warnUpdate s.group_settings inp.chatId uid := by
  rw [cmd_warn_success s inp uid hadm hargs hreply]

lemma cmd_warn_success_msgs (s : BotState) (inp : WarnInput) (uid : Int)
    (hadm : s.is_admin inp.actorId = true)
    (hargs : inp.args ≠ [])
    (hreply : inp.replyFrom = some uid) :
    (cmd_warn s inp).1 =
      warnReplies s.group_settings inp.chatId uid inp.args := by
  rw [cmd_warn_success s inp uid hadm hargs hreply]

lemma stepWarn_nonneg (s : BotState) (inp : WarnInput)
    (h : ∀ c u, 0 ≤ getWarnCount s.group_settings c u) (c u : Int) :
    0 ≤ getWarnCount (stepWarn s inp).group_settings c u := by
  unfold stepWarn
  by_cases hadm : s.is_admin inp.actorId
  · by_cases hargs : inp.args = []
    · rw [cmd_warn_usage s inp hadm (Or.inl hargs)]
      exact h c u
    · cases hreply : inp.replyFrom with
      | none =>
        rw [cmd_warn_usage s inp hadm (Or.inr hreply)]
        exact h c u
      | some uid =>
        rw [cmd_warn_success_state s inp uid hadm hargs hreply]
        by_cases hcu : c = inp.chatId ∧ u = uid
        · rw [hcu.1, hcu.2, getWarnCount_warnUpdate_self]
          have := h inp.chatId uid
          omega
        · have hor : c ≠ inp.chatId ∨ u ≠ uid := by tauto
          rw [getWarnCount_warnUpdate_other _ _ _ _ _ hor]
          exact h c u
  · rw [cmd_warn_not_admin s inp (by simpa using hadm)]
    exact h c u

lemma runWarnsFrom_nonneg (events : List WarnInput) :
    ∀ s : BotState, (∀ c u, 0 ≤ getWarnCount s.group_settings c u) →
      ∀ c u, 0 ≤ getWarnCount (events.foldl stepWarn s).group_settings c u := by
  induction events with
  | nil => intro s h; exact h
  | cons e rest ih =>
    intro s h
    exact ih (stepWarn s e) (stepWarn_nonneg s e h)

example :
    cmd_warn ⟨[1], []⟩ ⟨1, 10, ["spam"], some 20⟩ =
      ([Reply.warnMsg 20 "spam" 1], ⟨[1], [(10, [(20, 1)])]⟩) := by
  decide

example :
    cmd_warn ⟨[1], [(10, [(20, 2)])]⟩ ⟨1, 10, ["spam"], some 20⟩ =
      ([Reply.warnMsg 20 "spam" 3, Reply.banChatMember 10 20,
        Reply.bannedNotice 20],
       ⟨[1], [(10, [(20, 3)])]⟩) := by
  decide

/-- C1 (counterexample): with the default threshold 3, a warn on a user
whose current count is `threshold - 1 = 2` does not yield only the ban: the
handler still sends the warning `reply_text` (showing 3/3) before calling
`ban_chat_member`, so a Warn result is produced for that event. -/
theorem c1_counterexample :
    getWarnCount [(10, [(20, 2)])] 10 20 = 2 ∧
    ((cmd_warn ⟨[1], [(10, [(20, 2)])]⟩ ⟨1, 10, ["spam"], some 20⟩).1.any
      Reply.isWarnMsg) = true := by
  decide

/-- C1 (amended): when an admin warns a valid target whose count is
`threshold - 1 = 2`, the handler does issue the auto-ban — but its output is
the warning message (count 3/3) followed by the `ban_chat_member` call and
the banned notice, not the ban alone. -/
theorem c1_warn_at_threshold (s : BotState) (inp : WarnInput) (uid : Int)
    (hadm : s.is_admin inp.actorId = true)
    (hargs : inp.args ≠ [])
    (hreply : inp.replyFrom = some uid)
    (hcount : getWarnCount s.group_settings inp.chatId uid = 2) :
    (cmd_warn s inp).1 =
      [Reply.warnMsg uid (String.intercalate " " inp.args) 3,
       Reply.banChatMember inp.chatId uid,
       Reply.bannedNotice uid] := by
  rw [cmd_warn_success_msgs s inp uid hadm hargs hreply]
  simp [warnReplies, hcount]

/-- C1 witness. -/
theorem c1_warn_at_threshold_witness :
    (cmd_warn ⟨[1], [(10, [(20, 2)])]⟩ ⟨1, 10, ["spam"], some 20⟩).1 =
      [Reply.warnMsg 20 "spam" 3, Reply.banChatMember 10 20,
       Reply.bannedNotice 20] :=
  c1_warn_at_threshold ⟨[1], [(10, [(20, 2)])]⟩ ⟨1, 10, ["spam"], some 20⟩ 20
    (by decide) (by decide) rfl (by decide)

/-- C2 (counterexample): `cmd_warn` keeps no event ids at all, so
redelivering the identical warn update mutates the store a second time: from
a fresh store the two deliveries leave the target at count 2 (not at most
1), the two outcomes differ (`Warn 1` versus `Warn 2`), and the second
delivery changes the state again. -/
theorem c2_counterexample :
    getWarnCount
      ((cmd_warn (cmd_warn ⟨[1], []⟩ ⟨1, 10, ["x"], some 20⟩).2
        ⟨1, 10, ["x"], some 20⟩).2.group_settings) 10 20 = 2 ∧
    (cmd_warn (cmd_warn ⟨[1], []⟩ ⟨1, 10, ["x"], some 20⟩).2
        ⟨1, 10, ["x"], some 20⟩).1 ≠
      (cmd_warn ⟨[1], []⟩ ⟨1, 10, ["x"], some 20⟩).1 ∧
    (cmd_warn (cmd_warn ⟨[1], []⟩ ⟨1, 10, ["x"], some 20⟩).2
        ⟨1, 10, ["x"], some 20⟩).2 ≠
      (cmd_warn ⟨[1], []⟩ ⟨1, 10, ["x"], some 20⟩).2 := by
  decide

/-- C2 (amended): the handler performs no de-duplication; every delivery of
the identical warn update increments the target's count again, so after one
delivery the count is the old count plus 1 and after the redelivery it is
the old count plus 2. -/
theorem c2_replay_increments_each_time (s : BotState) (inp : WarnInput)
    (uid : Int)
    (hadm : s.is_admin inp.actorId = true)
    (hargs : inp.args ≠ [])
    (hreply : inp.replyFrom = some uid) :
    getWarnCount (cmd_warn s inp).2.group_settings inp.chatId uid =
      getWarnCount s.group_settings inp.chatId uid + 1 ∧
    getWarnCount
        (cmd_warn (cmd_warn s inp).2 inp).2.group_settings inp.chatId uid =
      getWarnCount s.group_settings inp.chatId uid + 2 := by
  have hadm1 : (cmd_warn s inp).2.is_admin inp.actorId = true := by
    rw [cmd_warn_success s inp uid hadm hargs hreply]
    exact hadm
  have h1 := cmd_warn_success_state s inp uid hadm hargs hreply
  have h2 := cmd_warn_success_state (cmd_warn s inp).2 inp uid hadm1 hargs hreply
  constructor
  · rw [h1, getWarnCount_warnUpdate_self]
  · rw [h2, h1, getWarnCount_warnUpdate_self, getWarnCount_warnUpdate_self]
    ring

/-- C2 witness. -/
theorem c2_replay_increments_each_time_witness :
    getWarnCount (cmd_warn ⟨[1], []⟩ ⟨1, 10, ["x"], some 20⟩).2.group_settings
        10 20 = getWarnCount ([] : GroupSettings) 10 20 + 1 ∧
    getWarnCount
        (cmd_warn (cmd_warn ⟨[1], []⟩ ⟨1, 10, ["x"], some 20⟩).2
          ⟨1, 10, ["x"], some 20⟩).2.group_settings 10 20 =
      getWarnCount ([] : GroupSettings) 10 20 + 2 :=
  c2_replay_increments_each_time ⟨[1], []⟩ ⟨1, 10, ["x"], some 20⟩ 20
    (by decide) (by decide) rfl

/-- C3 (counterexample): the code keeps no ban state, so a warn on a user
who already reached the threshold (count 3, banned on the previous warn) is
not a no-op: the count is incremented to 4 and `ban_chat_member` is called
again without any explicit unban. -/
theorem c3_counterexample :
    getWarnCount [(10, [(20, 3)])] 10 20 = 3 ∧
    getWarnCount
        (cmd_warn ⟨[1], [(10, [(20, 3)])]⟩
          ⟨1, 10, ["x"], some 20⟩).2.group_settings 10 20 = 4 ∧
    ((cmd_warn ⟨[1], [(10, [(20, 3)])]⟩ ⟨1, 10, ["x"], some 20⟩).1.any
      Reply.isBanCall) = true := by
  decide

/-- C3 (amended): for a user already past the ban threshold (count ≥ 3,
i.e. already auto-banned by an earlier warn), a further admin warn is not a
no-op: the count is incremented once more and `ban_chat_member` is issued
again. -/
theorem c3_no_terminal_ban (s : BotState) (inp : WarnInput) (uid : Int)
    (hadm : s.is_admin inp.actorId = true)
    (hargs : inp.args ≠ [])
    (hreply : inp.replyFrom = some uid)
    (hcount : getWarnCount s.group_settings inp.chatId uid ≥ 3) :
    getWarnCount (cmd_warn s inp).2.group_settings inp.chatId uid =
      getWarnCount s.group_settings inp.chatId uid + 1 ∧
    ((cmd_warn s inp).1.any Reply.isBanCall) = true := by
  constructor
  · rw [cmd_warn_success_state s inp uid hadm hargs hreply,
      getWarnCount_warnUpdate_self]
  · rw [cmd_warn_success_msgs s inp uid hadm hargs hreply]
    have h3 : getWarnCount s.group_settings inp.chatId uid + 1 ≥ 3 := by omega
    simp [warnReplies, if_pos h3, Reply.isBanCall]

/-- C3 witness. -/
theorem c3_no_terminal_ban_witness :
    getWarnCount
        (cmd_warn ⟨[1], [(10, [(20, 3)])]⟩
          ⟨1, 10, ["x"], some 20⟩).2.group_settings 10 20 =
      getWarnCount [(10, [(20, 3)])] 10 20 + 1 ∧
    ((cmd_warn ⟨[1], [(10, [(20, 3)])]⟩ ⟨1, 10, ["x"], some 20⟩).1.any
      Reply.isBanCall) = true :=
  c3_no_terminal_ban ⟨[1], [(10, [(20, 3)])]⟩ ⟨1, 10, ["x"], some 20⟩ 20
    (by decide) (by decide) rfl (by decide)

/-- C4: in every state reachable from construction
(`self.group_settings = {}`) by any sequence of warn updates, every
`(chat, user)` warning count is ≥ 0, and for a fresh user it starts at 0. -/
theorem c4_warn_count_nonneg (adminIds : List Int) (events : List WarnInput)
    (c u : Int) :
    getWarnCount (runWarns adminIds events).group_settings c u ≥ 0 ∧
    getWarnCount (BotState.mk adminIds []).group_settings c u = 0 := by
  refine ⟨?_, rfl⟩
  exact runWarnsFrom_nonneg events ⟨adminIds, []⟩ (fun _ _ => le_refl 0) c u

/-- C5: a warn issued by an actor who is not in `admin_ids` only produces
the admin-required rejection message and returns the state unchanged: no
warning count is created or incremented. -/
theorem c5_unauthorized_untouched (s : BotState) (inp : WarnInput)
    (hadm : s.is_admin inp.actorId = false) :
    cmd_warn s inp = ([Reply.needAdmin], s) :=
  cmd_warn_not_admin s inp hadm

/-- C5 witness. -/
theorem c5_unauthorized_untouched_witness :
    cmd_warn ⟨[1], [(10, [(20, 1)])]⟩ ⟨2, 10, ["x"], some 20⟩ =
      ([Reply.needAdmin], ⟨[1], [(10, [(20, 1)])]⟩) :=
  c5_unauthorized_untouched ⟨[1], [(10, [(20, 1)])]⟩ ⟨2, 10, ["x"], some 20⟩
    (by decide)

/-- C6 (counterexample): a warn with no target and no args issued by a
non-admin does not return the usage hint — the admin check fires first and
the handler answers with the admin-required rejection instead. -/
theorem c6_counterexample :
    (cmd_warn ⟨[1], []⟩ ⟨2, 10, [], none⟩).1 = [Reply.needAdmin] ∧
    (cmd_warn ⟨[1], []⟩ ⟨2, 10, [], none⟩).1 ≠ [Reply.usageHint] := by
  decide

/-- C6 (amended): for an admin actor, a warn with no args or no reply
target returns exactly the usage hint and leaves the state untouched; for a
non-admin actor the unauthorized rejection is returned first (also with no
mutation). -/
theorem c6_usage_hint_no_mutation (s : BotState) (inp : WarnInput)
    (hadm : s.is_admin inp.actorId = true)
    (h : inp.args = [] ∨ inp.replyFrom = none) :
    cmd_warn s inp = ([Reply.usageHint], s) :=
  cmd_warn_usage s inp hadm h

/-- C6 witness. -/
theorem c6_usage_hint_no_mutation_witness :
    cmd_warn ⟨[1], [(10, [(20, 1)])]⟩ ⟨1, 10, [], some 20⟩ =
      ([Reply.usageHint], ⟨[1], [(10, [(20, 1)])]⟩) :=
  c6_usage_hint_no_mutation ⟨[1], [(10, [(20, 1)])]⟩ ⟨1, 10, [], some 20⟩
    (by decide) (Or.inl rfl)

/-- C7: reading the warning count for a `(chat, user)` pair that has no
stored entry yields 0 (the `.get(user.id, 0)` default — the zero-value
record, the code storing nothing but counts); the read is a total function
and cannot fail. -/
theorem c7_missing_record_zero (gs : GroupSettings) (chat user : Int)
    (h : hasWarnEntry gs chat user = false) :
    getWarnCount gs chat user = 0 := by
  unfold hasWarnEntry at h
  unfold getWarnCount lookupD
  cases hg : lookup? gs chat with
  | none => rfl
  | some w =>
    rw [hg] at h
    cases hw : lookup? w user with
    | none => simp [hw]
    | some v => simp [hw] at h

/-- C7 witness. -/
theorem c7_missing_record_zero_witness :
    getWarnCount [(10, [(21, 5)])] 10 20 = 0 :=
  c7_missing_record_zero [(10, [(21, 5)])] 10 20 (by decide)

/-- C8: a successful admin warn changes exactly one warning-count entry:
every `(c, u)` other than `(effective chat, target user)` reads the same
count afterwards, while the target's own count goes up by one. -/
theorem c8_warn_frame (s : BotState) (inp : WarnInput) (uid c u : Int)
    (hadm : s.is_admin inp.actorId = true)
    (hargs : inp.args ≠ [])
    (hreply : inp.replyFrom = some uid)
    (hne : c ≠ inp.chatId ∨ u ≠ uid) :
    getWarnCount (cmd_warn s inp).2.group_settings c u =
      getWarnCount s.group_settings c u ∧
    getWarnCount (cmd_warn s inp).2.group_settings inp.chatId uid =
      getWarnCount s.group_settings inp.chatId uid + 1 := by
  rw [cmd_warn_success_state s inp uid hadm hargs hreply]
  exact ⟨getWarnCount_warnUpdate_other _ _ _ _ _ hne,
    getWarnCount_warnUpdate_self _ _ _⟩

/-- C8 witness. -/
theorem c8_warn_frame_witness :
    getWarnCount
        (cmd_warn ⟨[1], [(10, [(21, 5)]), (11, [(20, 2)])]⟩
          ⟨1, 10, ["x"], some 20⟩).2.group_settings 10 21 =
      getWarnCount [(10, [(21, 5)]), (11, [(20, 2)])] 10 21 ∧
    getWarnCount
        (cmd_warn ⟨[1], [(10, [(21, 5)]), (11, [(20, 2)])]⟩
          ⟨1, 10, ["x"], some 20⟩).2.group_settings 10 20 =
      getWarnCount [(10, [(21, 5)]), (11, [(20, 2)])] 10 20 + 1 :=
  c8_warn_frame ⟨[1], [(10, [(21, 5)]), (11, [(20, 2)])]⟩
    ⟨1, 10, ["x"], some 20⟩ 20 10 21
    (by decide) (by decide) rfl (Or.inr (by decide))

/-- C9: for a bot constructed from a successfully loaded configuration,
`is_admin` returns true exactly when the user's id is in the `admin_ids`
list parsed from the `ADMIN_IDS` environment variable; the check takes no
chat and reads only the construction-time `admin_ids`, so its result is the
same across any two `group_settings` states. -/
theorem c9_is_admin_membership (tokenEnv adminIdsEnv : Option String)
    (cfg : Config) (h : load_config tokenEnv adminIdsEnv = Except.ok cfg)
    (gs1 gs2 : GroupSettings) (userId : Int) :
    (BotState.is_admin ⟨cfg.admin_ids, gs1⟩ userId = true ↔
      userId ∈ cfg.admin_ids) ∧
    parse_admin_ids (adminIdsEnv.getD "") = some cfg.admin_ids ∧
    BotState.is_admin ⟨cfg.admin_ids, gs1⟩ userId =
      BotState.is_admin ⟨cfg.admin_ids, gs2⟩ userId := by
  refine ⟨?_, ?_, rfl⟩
  · simp [BotState.is_admin]
  · unfold load_config at h
    cases hp : parse_admin_ids (adminIdsEnv.getD "") with
    | none =>
      rw [hp] at h
      dsimp only at h
      exact absurd h (by simp)
    | some ids =>
      rw [hp] at h
      dsimp only at h
      by_cases ht : tokenEnv.getD "" = ""
      · rw [if_pos ht] at h
        exact absurd h (by simp)
      · rw [if_neg ht] at h
        simp only [Except.ok.injEq] at h
        rw [← h]

/-- C9 witness. -/
theorem c9_is_admin_membership_witness :
    (BotState.is_admin ⟨(Config.mk "t" [7]).admin_ids, []⟩ 7 = true ↔
      (7 : Int) ∈ (Config.mk "t" [7]).admin_ids) ∧
    parse_admin_ids ((some "7" : Option String).getD "") =
      some (Config.mk "t" [7]).admin_ids ∧
    BotState.is_admin ⟨(Config.mk "t" [7]).admin_ids, []⟩ 7 =
      BotState.is_admin ⟨(Config.mk "t" [7]).admin_ids, [(10, [(20, 1)])]⟩ 7 :=
  c9_is_admin_membership (some "t") (some "7") (Config.mk "t" [7]) rfl
    [] [(10, [(20, 1)])] 7

/-- C10 (counterexample): a present, nonempty `TELEGRAM_BOT_TOKEN` does not
guarantee that configuration loading completes: `ADMIN_IDS='abc'` makes
`int('abc')` raise `ValueError` on line 40, before the token check runs. -/
theorem c10_counterexample :
    load_config (some "tok") (some "abc") =
      Except.error
        (InitError.valueError "invalid literal for int() with base 10") :=
  rfl

/-- C10 (amended): the `__init__` configuration prefix raises `ValueError`
iff `TELEGRAM_BOT_TOKEN` is unset or empty, or `ADMIN_IDS` contains a
non-blank entry that is not a valid integer literal; with a nonempty token
and well-formed `ADMIN_IDS` it completes without raising. -/
theorem c10_load_config_error_iff (tokenEnv adminIdsEnv : Option String) :
    (load_config tokenEnv adminIdsEnv).isOk = false ↔
      (tokenEnv.getD "" = "" ∨
        parse_admin_ids (adminIdsEnv.getD "") = none) := by
  unfold load_config
  cases hp : parse_admin_ids (adminIdsEnv.getD "") with
  | none => simp [hp, Except.isOk, Except.toBool]
  | some ids =>
    by_cases ht : tokenEnv.getD "" = ""
    · simp [hp, ht, Except.isOk, Except.toBool]
    · simp [hp, ht, Except.isOk, Except.toBool]
